import Mathlib

/-!
Shallow embedding of lib/BeeswaxClient.js (beeswax-client).

JavaScript values flowing through the client (request bodies, response
envelopes, error objects) are modelled by the inductive `JsonVal`; the
absent value `undefined` is modelled by `Option JsonVal` with `none` for
`undefined`.  Property access, `[0]` indexing, string coercion and the
two not-found regular expressions are translated from their JavaScript
semantics.  Stateful promise machinery (the single-flight `_authPromise`
marker, the recursive `sendRequest` retry loop, the pagination loop) is
embedded as explicit state passing over lists of transport outcomes.
-/

namespace Beeswax

/-- JSON-representable JavaScript values.  `null` doubles for the JS
`null`; the absent `undefined` is `none` at `Option JsonVal`. -/
inductive JsonVal where
  | null : JsonVal
  | bool (b : Bool) : JsonVal
  | num (n : Int) : JsonVal
  | str (s : String) : JsonVal
  | arr (xs : List JsonVal) : JsonVal
  | obj (fields : List (String × JsonVal)) : JsonVal

/-- First binding of a key in an object field list (JS objects have
unique keys, so first-match lookup is exact). -/
def lookupField (fs : List (String × JsonVal)) (k : String) : Option JsonVal :=
  (fs.find? fun kv => kv.1 == k).map fun kv => kv.2

/-- JS named-property access `v.k` on a non-null value: a binding on
objects, `undefined` (`none`) otherwise.  The named properties the client
reads (`success`, `payload`, `error`, `message`, `id`, `response`) do not
exist on primitives or arrays.  Access on `null`/`undefined` throws in JS
and is handled explicitly at each call site. -/
def jsGetField : JsonVal → String → Option JsonVal
  | .obj fs, k => lookupField fs k
  | _, _ => none

/-- JS `v[0]`: first element of an array, first character of a string,
the `"0"` property of an object, `undefined` otherwise. -/
def jsIndexZero : JsonVal → Option JsonVal
  | .arr (x :: _) => some x
  | .arr [] => none
  | .str s =>
    match s.data with
    | [] => none
    | c :: _ => some (.str (String.mk [c]))
  | .obj fs => lookupField fs "0"
  | _ => none

mutual

/-- Element coercion used by JS `Array.prototype.join` (hence by array
`toString`): `null` becomes the empty string, nested arrays join
recursively with commas, objects become `[object Object]`. -/
def arrElemStr : JsonVal → String
  | .null => ""
  | .bool b => if b then "true" else "false"
  | .num n => toString n
  | .str s => s
  | .arr xs => String.intercalate "," (arrElemStrList xs)
  | .obj _ => "[object Object]"

/-- Pointwise element coercion of a list, for the array case above. -/
def arrElemStrList : List JsonVal → List String
  | [] => []
  | x :: xs => arrElemStr x :: arrElemStrList xs

end

/-- JS `String(v)` coercion: like the join-element coercion except that
top-level `null` renders as `"null"`. -/
def jsToString : JsonVal → String
  | .null => "null"
  | v => arrElemStr v

/-- Characters the JS regular-expression `.` does not match. -/
def isLineTerm (c : Char) : Bool :=
  c == '\n' || c == '\r' || c == Char.ofNat 0x2028 || c == Char.ofNat 0x2029

/-- Match `.*post` against a character list: `post` occurs after a
(possibly empty) run of non-line-terminator characters. -/
def regexDotStar (post : List Char) : List Char → Bool
  | [] => post.isEmpty
  | c :: cs => post.isPrefixOf (c :: cs) || (!isLineTerm c && regexDotStar post cs)

/-- Unanchored search for `pre.*post`, the shape of both not-found
patterns in the client. -/
def regexSearch (pre post : List Char) : List Char → Bool
  | [] => false
  | c :: cs =>
    (pre.isPrefixOf (c :: cs) && regexDotStar post ((c :: cs).drop pre.length)) ||
      regexSearch pre post cs

/-- The edit-side test `/Could not load object.*to update/.test s`. -/
def editNotFoundTest (s : String) : Bool :=
  regexSearch "Could not load object".data "to update".data s.data

/-- The delete-side test `/Could not load object.*to delete/.test s`. -/
def deleteNotFoundTest (s : String) : Bool :=
  regexSearch "Could not load object".data "to delete".data s.data

/-- Uniform return shape of the client operations: `success` plus the
optional `code`, `message` and `payload` fields the source attaches. -/
structure OpResult where
  success : Bool
  code : Option Nat
  message : Option String
  payload : Option JsonVal

/-- The negative result edit and delete resolve with on a recognised
not-found failure. -/
def notFoundResult : OpResult := ⟨false, some 400, some "Not found", none⟩

/-- The negative result create and edit resolve with on an empty or
non-object body. -/
def bodyGuardResult : OpResult :=
  ⟨false, some 400, some "Body must be non-empty object", none⟩

/-- Navigation `resp.error.payload[0].message` of the not-found
detection, with every JS throw along the way (property access on
`null`/`undefined`) collapsing to `none`, exactly as the source
`try ... catch (e) \x7b\x7d` leaves `notFound` at `false`. -/
def messagePath (resp : Option JsonVal) : Option JsonVal :=
  match resp with
  | none => none
  | some .null => none
  | some r =>
    match jsGetField r "error" with
    | none => none
    | some .null => none
    | some er =>
      match jsGetField er "payload" with
      | none => none
      | some .null => none
      | some p =>
        match jsIndexZero p with
        | none => none
        | some .null => none
        | some p0 => jsGetField p0 "message"

/-- The message list reached by the detection, when it is an array. -/
def messageArray (resp : Option JsonVal) : Option (List JsonVal) :=
  match messagePath resp with
  | some (.arr xs) => some xs
  | _ => none

/-- The whole guarded detection
`notFound = resp.error.payload[0].message.some (str => pattern.test str)`:
`false` whenever the navigation throws or `message` is not an array
(`.some` is only a function on arrays); on an array, `test` coerces each
element to a string. -/
def notFoundCheck (test : String → Bool) (resp : Option JsonVal) : Bool :=
  match messagePath resp with
  | some (.arr xs) => xs.any fun x => test (jsToString x)
  | _ => false

/-- Outcome of a promise catch handler: resolve with a value or reject
with an error. -/
inductive CatchOut where
  | resolved (r : OpResult)
  | rejected (e : Option JsonVal)

/-- The catch handler of `_edit`: convert a detected not-found failure
into `notFoundResult` unless `failOnNotFound`, else re-reject. -/
def editCatch (failOnNotFound : Bool) (resp : Option JsonVal) : CatchOut :=
  if notFoundCheck editNotFoundTest resp && !failOnNotFound then
    .resolved notFoundResult
  else
    .rejected resp

/-- The catch handler of `_delete`, with the delete-side pattern. -/
def deleteCatch (failOnNotFound : Bool) (resp : Option JsonVal) : CatchOut :=
  if notFoundCheck deleteNotFoundTest resp && !failOnNotFound then
    .resolved notFoundResult
  else
    .rejected resp

/-- `isPOJO(value)`: `value && value.constructor === Object` — true
exactly on plain objects (arrays, primitives, `null`, `undefined` all
fail the test). -/
def isPOJO : Option JsonVal → Bool
  | some (.obj _) => true
  | _ => false

/-- `Object.keys(body || \x7b\x7d).length`. -/
def objKeyCount : Option JsonVal → Nat
  | some (.obj fs) => fs.length
  | _ => 0

/-- Options of one transport request: url and JSON body (an ordered
field list, as a JS object literal). -/
structure ReqOpts where
  url : String
  body : List (String × JsonVal)

/-- First step of a write operation: either an immediate resolution
(no network) or a network request with the built options. -/
inductive WriteStart where
  | immediate (r : OpResult)
  | network (opts : ReqOpts)

/-- Stand-in for `urlUtils.resolve(apiRoot, endpoint)`; the claims only
depend on the `/strict` suffixing, not on URL normalisation. -/
def resolveUrl (apiRoot endpoint : String) : String := apiRoot ++ endpoint

/-- Field list of a plain-object body (empty otherwise; only reached
after the POJO guard). -/
def bodyFields : Option JsonVal → List (String × JsonVal)
  | some (.obj fs) => fs
  | _ => []

/-- JS assignment `obj[k] = v` on a field list: overwrite in place if
the key exists, append otherwise. -/
def setKey : List (String × JsonVal) → String → JsonVal → List (String × JsonVal)
  | [], k, v => [(k, v)]
  | (k0, v0) :: rest, k, v =>
    if k0 == k then (k0, v) :: rest else (k0, v0) :: setKey rest k v

/-- `_create` up to its network send: the empty-body guard, then a POST
to the strict path variant with the given body. -/
def createStart (apiRoot endpoint : String) (body : Option JsonVal) : WriteStart :=
  if !isPOJO body || objKeyCount body == 0 then .immediate bodyGuardResult
  else .network ⟨resolveUrl apiRoot endpoint ++ "/strict", bodyFields body⟩

/-- `_edit` up to its network send: the same guard, then a PUT to the
strict path variant with the id merged into the body. -/
def editStart (apiRoot endpoint idField : String) (idv : JsonVal)
    (body : Option JsonVal) : WriteStart :=
  if !isPOJO body || objKeyCount body == 0 then .immediate bodyGuardResult
  else .network ⟨resolveUrl apiRoot endpoint ++ "/strict",
    setKey (bodyFields body) idField idv⟩

/-- The request options `_find` builds: the endpoint with the
single-field filter body `\x7bidField: id\x7d`. -/
def findOpts (apiRoot endpoint idField : String) (idv : JsonVal) : ReqOpts :=
  ⟨resolveUrl apiRoot endpoint, [(idField, idv)]⟩

/-- The `then` continuation of `_find` on a resolved envelope:
`\x7bsuccess: true, payload: body.payload[0]\x7d`.  `none` models the JS
throw when `body.payload` is `null`/`undefined` (then `[0]` rejects);
on an empty result array `payload[0]` is simply `undefined`. -/
def findThen (body : JsonVal) : Option OpResult :=
  match body with
  | .null => none
  | v =>
    match jsGetField v "payload" with
    | none => none
    | some .null => none
    | some pv => some ⟨true, none, none, jsIndexZero pv⟩

/-- The verifying read issued after a create write. -/
structure FindCall where
  endpoint : String
  idField : String
  idValue : Option JsonVal

/-- The `then` continuation of `_create` on a resolved write envelope:
`self._find(endpoint, idField, body.payload.id)`.  `none` models the JS
throw when `body` or `body.payload` is `null`/`undefined`. -/
def createFollowup (endpoint idField : String) (body : JsonVal) : Option FindCall :=
  match body with
  | .null => none
  | v =>
    match jsGetField v "payload" with
    | none => none
    | some .null => none
    | some pv => some ⟨endpoint, idField, jsGetField pv "id"⟩

/-- `delete error.response`: remove the raw transport response from an
error object (a no-op on non-objects; the errors reaching the catch
handlers are always Error or response objects). -/
def stripResponse : JsonVal → JsonVal
  | .obj fs => .obj (fs.filter fun kv => kv.1 != "response")
  | v => v

/-- Whether an error value still carries a `k` property. -/
def hasField (v : JsonVal) (k : String) : Bool :=
  match v with
  | .obj fs => fs.any fun kv => kv.1 == k
  | _ => false

/-- Stand-in for the rendering `util.inspect(body)` (a transport-library
detail; no claim depends on the exact text). -/
def utilInspect : JsonVal → String := jsToString

/-- The `new Error(util.inspect(body))` built on a `success: false`
envelope: an Error object carrying only a message. -/
def inspectError (body : JsonVal) : JsonVal :=
  .obj [("message", .str (utilInspect body))]

/-- Stand-in for the TypeError thrown by `body.success` when the parsed
body is `null`. -/
def typeErrorVal : JsonVal := .obj [("message", .str "TypeError")]

/-- The envelope inspection `body.success === false` (strict equality:
only the boolean `false` triggers it). -/
def isEnvSuccessFalse (body : JsonVal) : Bool :=
  match jsGetField body "success" with
  | some (.bool false) => true
  | _ => false

/-- Result of one `authenticate()` login attempt, as a function of the
transport outcome of the POST to `/rest/authenticate`: a `success: false`
envelope becomes a rejection with an inspect-Error, and every rejection
has `delete error.response` applied before propagating. -/
def authenticateResult (t : Except JsonVal JsonVal) : Except JsonVal Unit :=
  match t with
  | .error e => .error (stripResponse e)
  | .ok .null => .error (stripResponse typeErrorVal)
  | .ok body =>
    if isEnvSuccessFalse body then .error (stripResponse (inspectError body))
    else .ok ()

/-- Single-flight state of `_authPromise` on the client, with ghost
counters observing how many login requests were issued.  `pending` is
the in-flight attempt handle (`self._authPromise`). -/
structure AuthState where
  pending : Option Nat
  nextId : Nat
  loginsIssued : Nat

/-- `authenticate()` as a state transition: an in-flight attempt is
returned as is; otherwise a fresh login request is issued and becomes
the pending attempt. -/
def authenticate (s : AuthState) : Nat × AuthState :=
  match s.pending with
  | some h => (h, s)
  | none =>
    (s.nextId, ⟨some s.nextId, s.nextId + 1, s.loginsIssued + 1⟩)

/-- The `.finally` of the login attempt: `delete self._authPromise`,
run on success and on failure alike. -/
def completeAuth (_outcomeSuccess : Bool) (s : AuthState) : AuthState :=
  ⟨none, s.nextId, s.loginsIssued⟩

/-- Outcome of one transport send inside `request`: a resolved body, a
`StatusCodeError`, or any other transport error. -/
inductive RpOutcome where
  | ok (body : JsonVal)
  | statusErr (status : Nat) (e : JsonVal)
  | transportErr (e : JsonVal)

/-- Result of the `sendRequest` loop.  `exhausted` marks a run that
needs more transport outcomes than the supplied trace provides (the
loop itself has no bound of its own). -/
inductive SendResult where
  | resolved (body : JsonVal)
  | rejected (e : JsonVal)
  | exhausted

/-- The recursive `sendRequest` closure of `request`, evaluated against
a trace of transport outcomes (one per send) and of authentication
outcomes (one per login): a non-401 `StatusCodeError` or any other
transport error rejects; a 401 authenticates and, if that succeeds,
recurses into `sendRequest` again — the 401 catch wraps every send, so
retries are unbounded.  The second component counts the authentication
attempts performed. -/
def sendRequest : List RpOutcome → List (Except JsonVal Unit) → SendResult × Nat
  | [], _ => (.exhausted, 0)
  | .ok body :: _, _ => (.resolved body, 0)
  | .transportErr e :: _, _ => (.rejected e, 0)
  | .statusErr s e :: rest, auths =>
    if s ≠ 401 then (.rejected e, 0)
    else
      match auths with
      | [] => (.exhausted, 0)
      | .error ae :: _ => (.rejected ae, 1)
      | .ok _ :: auths2 =>
        let r := sendRequest rest auths2
        (r.1, r.2 + 1)

/-- `request` around the loop: the envelope inspection
(`success: false` rejects with an inspect-Error) and the final catch
that strips the raw response off every propagated error. -/
def requestResult (responses : List RpOutcome)
    (auths : List (Except JsonVal Unit)) : SendResult × Nat :=
  match sendRequest responses auths with
  | (.resolved body, n) =>
    if isEnvSuccessFalse body then (.rejected (stripResponse (inspectError body)), n)
    else (.resolved body, n)
  | (.rejected e, n) => (.rejected (stripResponse e), n)
  | (.exhausted, n) => (.exhausted, n)

/-- The fixed page size of `_queryAll`. -/
def batchSize : Nat := 50

/-- One merged request body of `fetchBatch`: the caller filter copied
key by key into a fresh object, then `rows`, `offset` and `sort_by`
assigned (overwriting any caller entry of the same name). -/
def mergedBody (filter : List (String × JsonVal)) (offset : Nat)
    (idField : String) : List (String × JsonVal) :=
  setKey (setKey (setKey filter "rows" (.num batchSize)) "offset" (.num offset))
    "sort_by" (.str idField)

/-- The recursive `fetchBatch` loop of `_queryAll`, run against a server
holding `records`: each step issues a read with the merged body,
receives the page `records[offset, offset + batchSize)`, accumulates it,
stops when the page is short, and otherwise advances the offset by the
page size.  `fuel` bounds the number of reads for termination; `none`
means the bound was hit.  The second component of the result is the
trace of issued request bodies. -/
def fetchBatch {α : Type} (records : List α) (filter : List (String × JsonVal))
    (idField : String) :
    Nat → Nat → List α → List (List (String × JsonVal)) →
      Option (List α × List (List (String × JsonVal)))
  | 0, _, _, _ => none
  | fuel + 1, offset, results, reqs =>
    let opts := mergedBody filter offset idField
    let page := (records.drop offset).take batchSize
    let results2 := results ++ page
    let reqs2 := reqs ++ [opts]
    if page.length < batchSize then some (results2, reqs2)
    else fetchBatch records filter idField fuel (offset + batchSize) results2 reqs2

/-- `_queryAll`: start the loop at offset 0 with empty accumulators.
The fuel provided is the exact number of reads the stopping rule needs,
so a `some` result also certifies that the loop stops within it. -/
def queryAll {α : Type} (records : List α) (filter : List (String × JsonVal))
    (idField : String) : Option (List α × List (List (String × JsonVal))) :=
  fetchBatch records filter idField (records.length / batchSize + 1) 0 [] []

/-- Externally visible steps of `_uploadCreativeAsset`. -/
inductive UploadEvent where
  | auth
  | multipartSend
deriving DecidableEq

/-- Event trace of `_uploadCreativeAsset`: `authenticate()` is invoked
unconditionally — the session state is never consulted (the parameter is
a ghost recording it) — and the multipart send happens only once the
authentication step has resolved. -/
def uploadTrace (_sessionValid authOk : Bool) : List UploadEvent :=
  [UploadEvent.auth] ++ (if authOk then [UploadEvent.multipartSend] else [])

/-- Result of `_uploadCreativeAsset` as a function of the transport
outcome of the authentication POST and of the multipart POST: an
authentication failure rejects with the authenticate error; a multipart
failure rejects with the raw error, unmodified; success resolves with
`\x7bsuccess: true, payload: response\x7d`. -/
def uploadRun (authTransport : Except JsonVal JsonVal)
    (mp : Except JsonVal JsonVal) : Except JsonVal OpResult :=
  match authenticateResult authTransport with
  | .error e => .error e
  | .ok _ =>
    match mp with
    | .ok resp => .ok ⟨true, none, none, some resp⟩
    | .error e => .error e

/-- A server error detail whose first payload entry carries a matching
update not-found message. -/
def editNotFoundError : Option JsonVal :=
  some (.obj [("error", .obj [("payload",
    .arr [.obj [("message", .arr [.str "Could not load object 5 to update"])]])])])

/-- A server error detail whose first payload entry carries a matching
delete not-found message. -/
def deleteNotFoundError : Option JsonVal :=
  some (.obj [("error", .obj [("payload",
    .arr [.obj [("message", .arr [.str "Could not load object 9 to delete"])]])])])

/-- A server error detail with a well-formed but non-matching message. -/
def otherMessageError : Option JsonVal :=
  some (.obj [("error", .obj [("payload",
    .arr [.obj [("message", .arr [.str "permission denied"])]])])])

/-- A server error detail whose message array holds a nested array of
strings rather than a string. -/
def nestedArrayError : Option JsonVal :=
  some (.obj [("error", .obj [("payload",
    .arr [.obj [("message",
      .arr [.arr [.str "Could not load object 9 to delete"]])]])])])

/-- An error value with a null `error` detail. -/
def nullDetailError : Option JsonVal := some (.obj [("error", JsonVal.null)])

/-! Helper lemmas. -/

/-- Stripping removes the `response` property from any error value. -/
theorem hasField_stripResponse (v : JsonVal) :
    hasField (stripResponse v) "response" = false := by
  cases v <;> simp only [stripResponse, hasField]
  case obj fs =>
    rw [List.any_eq_false]
    intro kv hkv
    have := (List.mem_filter.mp hkv).2
    simpa using this

/-- `v[0]` on an array is its first element. -/
theorem jsIndexZero_arr (xs : List JsonVal) : jsIndexZero (.arr xs) = xs.head? := by
  cases xs <;> rfl

/-- The guarded detection, read through `messageArray`: on a reachable
message array it is the coerced pattern search over the elements. -/
theorem notFoundCheck_of_messageArray_some (test : String → Bool)
    (resp : Option JsonVal) (xs : List JsonVal)
    (h : messageArray resp = some xs) :
    notFoundCheck test resp = xs.any fun x => test (jsToString x) := by
  unfold messageArray at h
  unfold notFoundCheck
  cases hp : messagePath resp with
  | none => rw [hp] at h; cases h
  | some v => rw [hp] at h; cases v <;> simp_all

/-- The guarded detection is `false` whenever the navigation does not
reach a message array. -/
theorem notFoundCheck_of_messageArray_none (test : String → Bool)
    (resp : Option JsonVal) (h : messageArray resp = none) :
    notFoundCheck test resp = false := by
  unfold messageArray at h
  unfold notFoundCheck
  cases hp : messagePath resp with
  | none => simp
  | some v => cases v <;> simp_all

/-- Assigning a key makes it looked up. -/
theorem lookupField_setKey_self (fs : List (String × JsonVal)) (k : String)
    (v : JsonVal) : lookupField (setKey fs k v) k = some v := by
  induction fs with
  | nil => simp [setKey, lookupField]
  | cons kv rest ih =>
    by_cases h : kv.1 == k
    · simp [setKey, lookupField, h]
    · simp only [setKey, h]
      simpa [lookupField, List.find?, h] using ih

/-- Assigning one key leaves the other keys unchanged. -/
theorem lookupField_setKey_other (fs : List (String × JsonVal)) (k k' : String)
    (v : JsonVal) (h : k' ≠ k) :
    lookupField (setKey fs k v) k' = lookupField fs k' := by
  induction fs with
  | nil =>
    have hkk : (k == k') = false := by
      rw [beq_eq_false_iff_ne]
      exact fun hc => h hc.symm
    simp [setKey, lookupField, List.find?, hkk]
  | cons kv rest ih =>
    by_cases hk : kv.1 == k
    · have hk1 : kv.1 = k := by simpa using hk
      have hk' : (kv.1 == k') = false := by
        rw [beq_eq_false_iff_ne, hk1]
        exact fun hc => h hc.symm
      simp [setKey, lookupField, List.find?, hk, hk']
    · by_cases hk2 : kv.1 == k'
      · simp [setKey, lookupField, List.find?, hk, hk2]
      · simp only [setKey, hk, if_false]
        simpa [lookupField, List.find?, hk2] using ih

/-! Claim theorems. -/

/-- Claim C3 (confirmed): for every edit or delete failure, if some
message reached by the detection matches the operation-specific
not-found pattern then, with `failOnNotFound` unset, the call resolves
with the negative result `code 400, "Not found"` and, with
`failOnNotFound` set, the original error is re-rejected; and if no
reached message matches, the original error is re-rejected unchanged
either way. -/
theorem edit_delete_not_found_policy (resp : Option JsonVal) :
    ((∀ xs, messageArray resp = some xs →
        (xs.any fun x => editNotFoundTest (jsToString x)) = true →
          editCatch false resp = .resolved notFoundResult ∧
          editCatch true resp = .rejected resp) ∧
      ((∀ xs, messageArray resp = some xs →
        (xs.any fun x => editNotFoundTest (jsToString x)) = false) →
          ∀ f, editCatch f resp = .rejected resp)) ∧
    ((∀ xs, messageArray resp = some xs →
        (xs.any fun x => deleteNotFoundTest (jsToString x)) = true →
          deleteCatch false resp = .resolved notFoundResult ∧
          deleteCatch true resp = .rejected resp) ∧
      ((∀ xs, messageArray resp = some xs →
        (xs.any fun x => deleteNotFoundTest (jsToString x)) = false) →
          ∀ f, deleteCatch f resp = .rejected resp)) := by
  refine ⟨⟨?_, ?_⟩, ?_, ?_⟩
  · intro xs hma hany
    rw [editCatch, editCatch, notFoundCheck_of_messageArray_some _ _ _ hma, hany]
    simp
  · intro hall f
    rw [editCatch]
    cases hma : messageArray resp with
    | none => rw [notFoundCheck_of_messageArray_none _ _ hma]; simp
    | some xs =>
      rw [notFoundCheck_of_messageArray_some _ _ _ hma, hall xs hma]
      simp
  · intro xs hma hany
    rw [deleteCatch, deleteCatch, notFoundCheck_of_messageArray_some _ _ _ hma, hany]
    simp
  · intro hall f
    rw [deleteCatch]
    cases hma : messageArray resp with
    | none => rw [notFoundCheck_of_messageArray_none _ _ hma]; simp
    | some xs =>
      rw [notFoundCheck_of_messageArray_some _ _ _ hma, hall xs hma]
      simp

/-- Witness for C3 at concrete error values: a matching update message
converts to the negative result unless `failOnNotFound`, a matching
delete message likewise, and a non-matching message re-rejects. -/
theorem edit_delete_not_found_policy_witness :
    editCatch false editNotFoundError = .resolved notFoundResult ∧
    editCatch true editNotFoundError = .rejected editNotFoundError ∧
    deleteCatch false deleteNotFoundError = .resolved notFoundResult ∧
    deleteCatch false otherMessageError = .rejected otherMessageError :=
  ⟨((edit_delete_not_found_policy editNotFoundError).1.1
      [.str "Could not load object 5 to update"] rfl rfl).1,
   ((edit_delete_not_found_policy editNotFoundError).1.1
      [.str "Could not load object 5 to update"] rfl rfl).2,
   ((edit_delete_not_found_policy deleteNotFoundError).2.1
      [.str "Could not load object 9 to delete"] rfl rfl).1,
   (edit_delete_not_found_policy otherMessageError).2.2
     (fun xs h => by cases h; rfl) false⟩

/-- Claim C10 counterexample: an error whose `message` is an array whose
only element is not a string (a nested array of strings) — so the shape
does not provide the message as an array of strings — nevertheless
triggers the detection through JS string coercion, and the handler
resolves with the negative result instead of propagating the original
error. -/
theorem not_found_detection_coerces_nested_array :
    messageArray nestedArrayError =
      some [.arr [.str "Could not load object 9 to delete"]] ∧
    notFoundCheck deleteNotFoundTest nestedArrayError = true ∧
    deleteCatch false nestedArrayError = .resolved notFoundResult :=
  ⟨rfl, rfl, rfl⟩

/-- Claim C10 (amended): for every propagated error whose shape does not
provide `error.payload[0].message` as an array at all (missing fields,
non-array message, null error), the detection evaluates to `false` — it
is a total function, the JS throws being absorbed by the try/catch — and
the original error is re-rejected unchanged by both handlers; when the
message is an array, its elements are string-coerced before matching, so
non-string elements can still trigger the detection. -/
theorem not_found_detection_total (resp : Option JsonVal)
    (test : String → Bool) (f : Bool) (h : messageArray resp = none) :
    notFoundCheck test resp = false ∧
    editCatch f resp = .rejected resp ∧
    deleteCatch f resp = .rejected resp := by
  refine ⟨notFoundCheck_of_messageArray_none _ _ h, ?_, ?_⟩
  · rw [editCatch, notFoundCheck_of_messageArray_none _ _ h]; simp
  · rw [deleteCatch, notFoundCheck_of_messageArray_none _ _ h]; simp

/-- Witness for C10 at a concrete malformed error (a null `error`
detail): detection is `false` and both handlers re-reject it. -/
theorem not_found_detection_total_witness :
    notFoundCheck editNotFoundTest nullDetailError = false ∧
    editCatch true nullDetailError = .rejected nullDetailError ∧
    deleteCatch true nullDetailError = .rejected nullDetailError :=
  not_found_detection_total nullDetailError editNotFoundTest true rfl

/-- Claim C4 counterexample: `_find` against an envelope whose result
set is empty does not fail — it resolves as a successful
`OperationResult` with `success: true` and an undefined payload, because
`body.payload[0]` on an empty JS array is `undefined`, not an error. -/
theorem find_empty_resolves_success :
    findThen (.obj [("success", .bool true), ("payload", .arr [])]) =
      some ⟨true, none, none, none⟩ :=
  rfl

/-- Claim C4 (amended): every `find(endpoint, idField, id)` call issues
a read whose body is the single-field filter `\x7bidField: id\x7d`, and
returns the first record of the result set as `success: true`; when the
result set is empty it still resolves successfully, with an undefined
payload, rather than failing. -/
theorem find_returns_first_record :
    (∀ (apiRoot endpoint idField : String) (idv : JsonVal),
      findOpts apiRoot endpoint idField idv =
        ⟨resolveUrl apiRoot endpoint, [(idField, idv)]⟩) ∧
    (∀ (fs : List (String × JsonVal)) (xs : List JsonVal),
      lookupField fs "payload" = some (.arr xs) →
        findThen (.obj fs) = some ⟨true, none, none, xs.head?⟩) := by
  refine ⟨fun _ _ _ _ => rfl, fun fs xs h => ?_⟩
  rw [findThen, jsGetField, h]
  · cases xs <;> rfl
  · intro hc; cases hc

/-- Witness for C4: concrete filter construction and a two-record
result set resolving with its first record. -/
theorem find_returns_first_record_witness :
    findOpts "https://stingersbx.api.beeswax.com" "/rest/advertiser"
        "advertiser_id" (.num 3) =
      ⟨"https://stingersbx.api.beeswax.com/rest/advertiser",
        [("advertiser_id", .num 3)]⟩ ∧
    findThen (.obj [("payload", .arr [.str "r1", .str "r2"])]) =
      some ⟨true, none, none, some (.str "r1")⟩ :=
  ⟨find_returns_first_record.1 "https://stingersbx.api.beeswax.com"
      "/rest/advertiser" "advertiser_id" (.num 3),
   find_returns_first_record.2 [("payload", .arr [.str "r1", .str "r2"])]
      [.str "r1", .str "r2"] rfl⟩

/-- Claim C5 (confirmed): every create or edit call whose body is not a
plain object, or is an object with zero keys, short-circuits to the
immediate negative result `code 400, "Body must be non-empty object"`
with no network request built. -/
theorem write_body_guard (apiRoot endpoint idField : String) (idv : JsonVal)
    (body : Option JsonVal)
    (h : isPOJO body = false ∨ objKeyCount body = 0) :
    createStart apiRoot endpoint body = .immediate bodyGuardResult ∧
    editStart apiRoot endpoint idField idv body = .immediate bodyGuardResult := by
  have hc : (!isPOJO body || objKeyCount body == 0) = true := by
    rcases h with h | h <;> simp [h]
  rw [createStart, editStart, hc]
  simp

/-- Witness for C5: the empty object body and a non-object (array) body
both short-circuit for create and for edit. -/
theorem write_body_guard_witness :
    createStart "https://stingersbx.api.beeswax.com" "/rest/campaign"
        (some (.obj [])) = .immediate bodyGuardResult ∧
    editStart "https://stingersbx.api.beeswax.com" "/rest/campaign"
        "campaign_id" (.num 1) (some (.arr [.str "x"])) =
      .immediate bodyGuardResult :=
  ⟨(write_body_guard "https://stingersbx.api.beeswax.com" "/rest/campaign"
      "campaign_id" (.num 1) (some (.obj [])) (Or.inr rfl)).1,
   (write_body_guard "https://stingersbx.api.beeswax.com" "/rest/campaign"
      "campaign_id" (.num 1) (some (.arr [.str "x"])) (Or.inl rfl)).2⟩

/-- Claim C6 (confirmed): `authenticate()` is single-flight — a call
made while an attempt is pending returns that same attempt with the
client state (in particular the count of issued logins) unchanged; a
call with no pending attempt issues exactly one fresh login and records
it as pending; and completing an attempt, successfully or not, clears
the pending marker. -/
theorem authenticate_single_flight :
    (∀ (s : AuthState) (h : Nat), s.pending = some h →
      authenticate s = (h, s)) ∧
    (∀ (s : AuthState) (b : Bool), (completeAuth b s).pending = none) ∧
    (∀ s : AuthState, s.pending = none →
      (authenticate s).2.loginsIssued = s.loginsIssued + 1 ∧
      (authenticate s).2.pending = some (authenticate s).1) := by
  refine ⟨fun s h hp => ?_, fun s b => rfl, fun s hp => ?_⟩
  · rw [authenticate, hp]
  · rw [authenticate, hp]
    exact ⟨rfl, rfl⟩

/-- Witness for C6 at concrete states: a pending attempt is reused as
is, completion clears it, and a fresh state issues one login. -/
theorem authenticate_single_flight_witness :
    authenticate ⟨some 5, 6, 1⟩ = (5, ⟨some 5, 6, 1⟩) ∧
    (completeAuth true ⟨some 5, 6, 1⟩).pending = none ∧
    (authenticate ⟨none, 0, 0⟩).2.loginsIssued = 1 :=
  ⟨authenticate_single_flight.1 ⟨some 5, 6, 1⟩ 5 rfl,
   authenticate_single_flight.2.1 ⟨some 5, 6, 1⟩ true,
   (authenticate_single_flight.2.2 ⟨none, 0, 0⟩ rfl).1⟩

/-- Claim C9 (confirmed): after a successful create write, the
verifying find is issued with the filter value taken from the fixed
field `payload.id` of the write response — for every entity kind and
every configured `idField`, regardless of what the identifier field is
named in the payload. -/
theorem create_verifies_via_payload_id (endpoint idField : String)
    (fs : List (String × JsonVal)) (pv : JsonVal)
    (hp : lookupField fs "payload" = some pv) (hn : pv ≠ .null) :
    createFollowup endpoint idField (.obj fs) =
      some ⟨endpoint, idField, jsGetField pv "id"⟩ := by
  simp only [createFollowup, jsGetField]
  rw [hp]
  cases pv <;> simp_all

/-- Witness for C9: a write response whose payload carries both the
configured identifier field `advertiser_id` and the fixed field `id` —
the verifying find receives the value of `id`, not of `advertiser_id`. -/
theorem create_verifies_via_payload_id_witness :
    createFollowup "/rest/advertiser" "advertiser_id"
        (.obj [("payload",
          .obj [("advertiser_id", .num 7), ("id", .num 9)])]) =
      some ⟨"/rest/advertiser", "advertiser_id", some (.num 9)⟩ :=
  create_verifies_via_payload_id "/rest/advertiser" "advertiser_id"
    [("payload", .obj [("advertiser_id", .num 7), ("id", .num 9)])]
    (.obj [("advertiser_id", .num 7), ("id", .num 9)]) rfl
    (fun hc => JsonVal.noConfusion hc)

/-- Claim C1 counterexample: a transport trace yielding 401, then 401
again on the re-authenticated resend, then a success.  The claim says
the second consecutive 401 terminates the call as a failure with no
further retries or authentication attempts; the code instead performs a
second authentication and a third send, and the call resolves
successfully having authenticated twice. -/
theorem request_second_401_retries_again :
    requestResult
        [.statusErr 401 (.obj [("statusCode", .num 401)]),
         .statusErr 401 (.obj [("statusCode", .num 401)]),
         .ok (.obj [("success", .bool true), ("payload", .arr [])])]
        [.ok (), .ok ()] =
      (.resolved (.obj [("success", .bool true), ("payload", .arr [])]), 2) :=
  rfl

/-- Claim C1 (amended): the 401 handling of `request` is an unbounded
retry loop, not a single retry — every 401 response triggers one
re-authentication followed by a resend, so k consecutive 401s with
successful logins lead to k authentication attempts and a (k+1)-th send
whose outcome decides the call; the loop terminates only when a send
yields a non-401 outcome (success, other status error, or transport
error) or when an authentication attempt itself fails. -/
theorem request_retry_unbounded :
    (∀ (k : Nat) (b e : JsonVal),
      sendRequest (List.replicate k (.statusErr 401 e) ++ [.ok b])
        (List.replicate k (.ok ())) = (.resolved b, k)) ∧
    (∀ (e ae : JsonVal) (rs : List RpOutcome)
        (auths : List (Except JsonVal Unit)),
      sendRequest (.statusErr 401 e :: rs) (.error ae :: auths) =
        (.rejected ae, 1)) ∧
    (∀ (s : Nat) (e : JsonVal) (rs : List RpOutcome)
        (auths : List (Except JsonVal Unit)), s ≠ 401 →
      sendRequest (.statusErr s e :: rs) auths = (.rejected e, 0)) ∧
    (∀ (e : JsonVal) (rs : List RpOutcome)
        (auths : List (Except JsonVal Unit)),
      sendRequest (.transportErr e :: rs) auths = (.rejected e, 0)) := by
  refine ⟨?_, fun e ae rs auths => ?_, fun s e rs auths hs => ?_, fun e rs auths => rfl⟩
  · intro k
    induction k with
    | zero => intro b e; rfl
    | succ n ih =>
      intro b e
      simp [List.replicate_succ, sendRequest, ih b e]
  · simp [sendRequest]
  · simp [sendRequest, hs]

/-- Witness for C1 at concrete traces: three consecutive 401s are all
retried (three authentications, then success), and a non-401 status
error terminates at once with no authentication. -/
theorem request_retry_unbounded_witness :
    sendRequest (List.replicate 3 (.statusErr 401 JsonVal.null) ++
        [.ok (.bool true)]) (List.replicate 3 (.ok ())) =
      (.resolved (.bool true), 3) ∧
    sendRequest [.statusErr 404 (.obj [("statusCode", .num 404)])] [] =
      (.rejected (.obj [("statusCode", .num 404)]), 0) :=
  ⟨request_retry_unbounded.1 3 (.bool true) JsonVal.null,
   request_retry_unbounded.2.2.1 404 (.obj [("statusCode", .num 404)]) [] []
     (by decide)⟩

/-- Claim C7 counterexample: a multipart upload whose send fails with an
error still carrying its raw transport `response` propagates that error
to the caller unchanged — the upload path has no stripping step, so not
every error propagated by the client has the response removed. -/
theorem upload_error_keeps_response :
    uploadRun (.ok (.obj [("success", .bool true)]))
        (.error (.obj [("message", .str "boom"),
          ("response", .obj [("statusCode", .num 500)])])) =
      .error (.obj [("message", .str "boom"),
        ("response", .obj [("statusCode", .num 500)])]) ∧
    hasField (.obj [("message", .str "boom"),
      ("response", .obj [("statusCode", .num 500)])]) "response" = true :=
  ⟨rfl, rfl⟩

/-- Claim C7 (amended): errors propagated from `authenticate` and from
`request` always have the raw transport response stripped before the
caller observes them; upload-path errors coming from its authentication
step are `authenticate` errors and hence also stripped, but an error of
the multipart send itself is propagated without stripping. -/
theorem stripped_error_channels :
    (∀ (t : Except JsonVal JsonVal) (e : JsonVal),
      authenticateResult t = .error e → hasField e "response" = false) ∧
    (∀ (rs : List RpOutcome) (auths : List (Except JsonVal Unit))
        (e : JsonVal) (n : Nat),
      requestResult rs auths = (.rejected e, n) →
        hasField e "response" = false) ∧
    (∀ (t : Except JsonVal JsonVal) (e : JsonVal)
        (mp : Except JsonVal JsonVal),
      authenticateResult t = .error e → uploadRun t mp = .error e) := by
  refine ⟨fun t e h => ?_, fun rs auths e n h => ?_, fun t e mp h => ?_⟩
  · cases t with
    | error e0 =>
      have he : stripResponse e0 = e := Except.error.inj h
      rw [← he]
      exact hasField_stripResponse e0
    | ok body =>
      cases body with
      | null =>
        have he : stripResponse typeErrorVal = e := Except.error.inj h
        rw [← he]
        exact hasField_stripResponse typeErrorVal
      | obj fs =>
        have hdef : authenticateResult (.ok (.obj fs)) =
            if isEnvSuccessFalse (.obj fs) then
              .error (stripResponse (inspectError (.obj fs)))
            else .ok () := rfl
        rw [hdef] at h
        split at h
        · have he : stripResponse (inspectError (.obj fs)) = e :=
            Except.error.inj h
          rw [← he]
          exact hasField_stripResponse _
        · exact Except.noConfusion h
      | bool b => exact Except.noConfusion h
      | num n => exact Except.noConfusion h
      | str s => exact Except.noConfusion h
      | arr xs => exact Except.noConfusion h
  · rw [requestResult.eq_def] at h
    split at h
    · split at h
      · injection h with h1 h2
        injection h1 with h1
        rw [← h1]
        exact hasField_stripResponse _
      · injection h with h1 h2
        exact SendResult.noConfusion h1
    · injection h with h1 h2
      injection h1 with h1
      rw [← h1]
      exact hasField_stripResponse _
    · injection h with h1 h2
      exact SendResult.noConfusion h1
  · rw [uploadRun.eq_def, h]

/-- Witness for C7: an authentication transport error carrying a
response is stripped before propagation, and an upload whose
authentication step fails propagates that stripped error. -/
theorem stripped_error_channels_witness :
    hasField (.obj [("message", .str "connect failed")]) "response" = false ∧
    uploadRun (.error (.obj [("response", JsonVal.null)])) (.ok .null) =
      .error (.obj []) :=
  ⟨stripped_error_channels.1 (.error (.obj [("message", .str "connect failed")]))
      (.obj [("message", .str "connect failed")]) rfl,
   stripped_error_channels.2.2 (.error (.obj [("response", JsonVal.null)]))
      (.obj []) (.ok .null) rfl⟩

/-- Claim C8 (confirmed): `upload` performs its explicit authentication
step first, whatever the session state, and the multipart send happens
exactly when that step resolved successfully; an authentication failure
or a multipart failure propagates to the caller as that same error, and
no outcome of the upload path is the not-found translation. -/
theorem upload_auth_before_multipart :
    (∀ sv : Bool, uploadTrace sv true = [.auth, .multipartSend] ∧
      uploadTrace sv false = [.auth]) ∧
    (∀ (t : Except JsonVal JsonVal) (e : JsonVal),
      authenticateResult t = .ok () → uploadRun t (.error e) = .error e) ∧
    (∀ (t : Except JsonVal JsonVal) (e : JsonVal)
        (mp : Except JsonVal JsonVal),
      authenticateResult t = .error e → uploadRun t mp = .error e) ∧
    (∀ (t mp : Except JsonVal JsonVal),
      uploadRun t mp ≠ .ok notFoundResult) := by
  refine ⟨fun sv => ⟨rfl, rfl⟩, fun t e h => ?_, fun t e mp h => ?_,
    fun t mp => ?_⟩
  · rw [uploadRun.eq_def, h]
  · rw [uploadRun.eq_def, h]
  · rw [uploadRun.eq_def]
    cases hA : authenticateResult t with
    | error e => exact fun hc => Except.noConfusion hc
    | ok u =>
      cases mp with
      | error e => exact fun hc => Except.noConfusion hc
      | ok resp =>
        intro hc
        have := Except.ok.inj hc
        simp [notFoundResult] at this

/-- Witness for C8 at concrete outcomes: the trace with a valid session,
a multipart failure propagated raw after successful authentication, and
a failing authentication short-circuiting the upload. -/
theorem upload_auth_before_multipart_witness :
    uploadTrace true true = [.auth, .multipartSend] ∧
    uploadRun (.ok (.obj [])) (.error (.obj [("message", .str "EPIPE")])) =
      .error (.obj [("message", .str "EPIPE")]) ∧
    uploadRun (.error JsonVal.null) (.ok .null) = .error JsonVal.null :=
  ⟨(upload_auth_before_multipart.1 true).1,
   upload_auth_before_multipart.2.1 (.ok (.obj []))
     (.obj [("message", .str "EPIPE")]) rfl,
   upload_auth_before_multipart.2.2.1 (.error JsonVal.null) JsonVal.null
     (.ok .null) rfl⟩

/-- The pagination loop, solved in closed form: with enough fuel for
the stopping rule, the loop returns the accumulator extended by every
record from `offset` on, and issues exactly one request per page at
offsets `offset, offset + 50, ...` — `(remaining / 50) + 1` requests. -/
theorem fetchBatch_eq {α : Type} (records : List α)
    (filter : List (String × JsonVal)) (idField : String) :
    ∀ (fuel offset : Nat) (results : List α)
      (reqs : List (List (String × JsonVal))),
      (records.length - offset) / batchSize < fuel →
      fetchBatch records filter idField fuel offset results reqs =
        some (results ++ records.drop offset,
          reqs ++ (List.range ((records.length - offset) / batchSize + 1)).map
            fun i => mergedBody filter (offset + batchSize * i) idField) := by
  intro fuel
  induction fuel with
  | zero => intro offset results reqs h; exact absurd h (Nat.not_lt_zero _)
  | succ n ih =>
    intro offset results reqs h
    have hlen : ((records.drop offset).take batchSize).length =
        min batchSize (records.length - offset) := by
      rw [List.length_take, List.length_drop]
    simp only [fetchBatch]
    by_cases hlt : records.length - offset < batchSize
    · rw [if_pos (by rw [hlen]; omega)]
      have htake : (records.drop offset).take batchSize = records.drop offset :=
        List.take_of_length_le (by rw [List.length_drop]; omega)
      have hdiv0 : (records.length - offset) / batchSize = 0 :=
        Nat.div_eq_of_lt hlt
      rw [htake, hdiv0]
      simp [List.range_succ]
    · rw [if_neg (by rw [hlen]; omega)]
      have hge : batchSize ≤ records.length - offset := le_of_not_lt hlt
      have hdiv : (records.length - offset) / batchSize =
          (records.length - offset - batchSize) / batchSize + 1 :=
        Nat.div_eq_sub_div (by norm_num [batchSize]) hge
      have hsub : records.length - (offset + batchSize) =
          records.length - offset - batchSize := by omega
      have hfuel : (records.length - (offset + batchSize)) / batchSize < n := by
        rw [hsub]; omega
      rw [ih (offset + batchSize) _ _ hfuel, hsub, hdiv]
      have hrecords : (results ++ (records.drop offset).take batchSize) ++
          records.drop (offset + batchSize) = results ++ records.drop offset := by
        rw [List.append_assoc]
        congr 1
        rw [← List.drop_drop, List.take_append_drop]
      have hreqs : (reqs ++ [mergedBody filter offset idField]) ++
          (List.range ((records.length - offset - batchSize) / batchSize + 1)).map
            (fun i => mergedBody filter (offset + batchSize + batchSize * i) idField) =
          reqs ++ (List.range ((records.length - offset - batchSize) / batchSize + 1 + 1)).map
            (fun i => mergedBody filter (offset + batchSize * i) idField) := by
        rw [List.append_assoc]
        congr 1
        conv_rhs => rw [List.range_succ_eq_map, List.map_cons, List.map_map]
        rw [List.singleton_append]
        congr 1
        refine List.map_congr_left fun a _ => ?_
        have hx : offset + batchSize * (a + 1) =
            offset + batchSize + batchSize * a := by ring
        simp [Function.comp, Nat.succ_eq_add_one, hx]
      rw [hrecords, hreqs]

/-- Claim C2 (confirmed): for every server record list (any total count
N) with the fixed page size 50, `queryAll` starting at offset 0 issues
one read per page at offsets 0, 50, 100, ..., each a merge of the
caller filter with `rows = 50`, that offset, and `sort_by = idField`
(the three pagination keys overriding any caller entry, everything else
preserved), stops at the first short page — making `N / 50 + 1`
requests, the minimum consistent with the stopping rule — and resolves
with exactly the N records in page order. -/
theorem queryAll_paginates {α : Type} (records : List α)
    (filter : List (String × JsonVal)) (idField : String) :
    queryAll records filter idField =
      some (records,
        (List.range (records.length / 50 + 1)).map
          fun i => mergedBody filter (50 * i) idField) ∧
    (∀ offset : Nat,
      lookupField (mergedBody filter offset idField) "rows" =
        some (.num 50) ∧
      lookupField (mergedBody filter offset idField) "offset" =
        some (.num offset) ∧
      lookupField (mergedBody filter offset idField) "sort_by" =
        some (.str idField)) ∧
    (∀ (offset : Nat) (k : String),
      k ≠ "rows" → k ≠ "offset" → k ≠ "sort_by" →
        lookupField (mergedBody filter offset idField) k =
          lookupField filter k) := by
  refine ⟨?_, fun offset => ⟨?_, ?_, ?_⟩, fun offset k h1 h2 h3 => ?_⟩
  · rw [queryAll,
      fetchBatch_eq records filter idField _ 0 [] [] (by simp)]
    simp [batchSize]
  · rw [mergedBody, lookupField_setKey_other _ _ _ _ (by decide),
      lookupField_setKey_other _ _ _ _ (by decide), lookupField_setKey_self]
    rfl
  · rw [mergedBody, lookupField_setKey_other _ _ _ _ (by decide),
      lookupField_setKey_self]
  · rw [mergedBody, lookupField_setKey_self]
  · rw [mergedBody, lookupField_setKey_other _ _ _ _ h3,
      lookupField_setKey_other _ _ _ _ h2, lookupField_setKey_other _ _ _ _ h1]

/-- Witness for C2: a three-record server answered in one page of one
request, and a merged body preserving a caller filter entry while
carrying the three pagination keys. -/
theorem queryAll_paginates_witness :
    queryAll [1, 2, 3] [] "campaign_id" =
      some ([1, 2, 3], [mergedBody [] 0 "campaign_id"]) ∧
    lookupField (mergedBody [("alternative_id", .num 8)] 50 "campaign_id")
        "alternative_id" = some (.num 8) ∧
    lookupField (mergedBody [("alternative_id", .num 8)] 50 "campaign_id")
        "rows" = some (.num 50) :=
  ⟨(queryAll_paginates [1, 2, 3] [] "campaign_id").1,
   (queryAll_paginates ([] : List Nat) [("alternative_id", .num 8)]
      "campaign_id").2.2 50 "alternative_id" (by decide) (by decide) (by decide),
   ((queryAll_paginates ([] : List Nat) [("alternative_id", .num 8)]
      "campaign_id").2.1 50).1⟩

end Beeswax
